import Mathlib

/-!
Shallow embedding of the py-automation-testing utility layer.

Each definition translates one Python function from the repository source:
 - src/utils/locator_helpers.py  (LocatorStrategy.find_element)
 - src/utils/wait_helpers.py     (wait_for_condition, retry_on_failure)
 - src/utils/db_helper.py        (DatabaseHelper.get_connection, fetch_one)
 - src/features/steps/it_asset_inventory/overview_steps.py
                                 (step_verify_total_devices_count_matches_db)
 - src/pages/it_assert_inventory/overview_page.py and src/pages/base_page.py
                                 (is_overview_page_displayed, verify_page_loaded)

Python exceptions are modelled with Except; wall-clock time is modelled as
Nat in abstract time units (the per-attempt timeout and the poll interval
are both measured in the same unit); a Playwright wait on a selector is an
oracle mapping the selector to its outcome.
-/

deriving instance DecidableEq for Except

/-- Outcome of one page.wait_for_selector call for a fixed timeout and state:
the element was found after some elapsed time, the wait timed out
(PlaywrightTimeoutError after exactly the timeout), or the driver raised
some other exception after some elapsed time. -/
inductive WaitOutcome where
  | found (elapsed : Nat)
  | timedOut
  | err (elapsed : Nat) (msg : String)
  deriving DecidableEq, Repr

/-- src/utils/locator_helpers.py lines 16-24: a primary selector plus an
ordered list of fallback selectors (fallbacks defaults to []). -/
structure LocatorStrategy where
  primary : String
  fallbacks : List String
  deriving DecidableEq, Repr

/-- Observable behaviour of one find_element call: the returned value
(ok (some sel) = a Locator bound to sel, ok none = None, error = an
exception escaping the method), the list of selectors waited on, in order,
and the total time spent waiting. -/
structure FindTrace where
  result : Except String (Option String)
  queried : List String
  elapsed : Nat
  deriving DecidableEq, Repr

/-- Loop body of LocatorStrategy.find_element (locator_helpers.py 32-50)
over the remaining candidate selectors: wait for the selector; on success
return page.locator(selector); on PlaywrightTimeoutError (timedOut, which
consumes the full per-attempt timeout) move to the next candidate; any
other exception is not caught and escapes. If candidates run out, return
None. -/
def tryCandidates (resolve : String → WaitOutcome) (timeout : Nat) :
    List String → FindTrace
  | [] => ⟨Except.ok none, [], 0⟩
  | s :: rest =>
    match resolve s with
    | WaitOutcome.found t => ⟨Except.ok (some s), [s], t⟩
    | WaitOutcome.timedOut =>
      let r := tryCandidates resolve timeout rest
      ⟨r.result, s :: r.queried, timeout + r.elapsed⟩
    | WaitOutcome.err t m => ⟨Except.error m, [s], t⟩

/-- src/utils/locator_helpers.py lines 26-50: try the primary selector,
then each fallback in list order. -/
def LocatorStrategy.find_element (L : LocatorStrategy)
    (resolve : String → WaitOutcome) (timeout : Nat) : FindTrace :=
  tryCandidates resolve timeout (L.primary :: L.fallbacks)

/-- A page oracle is well-timed for a given per-attempt timeout when every
successful or erroring wait reports an elapsed time of at most that
timeout (a Playwright wait never runs past its timeout argument). -/
def waitBound (timeout : Nat) : WaitOutcome → Bool
  | WaitOutcome.found t => decide (t ≤ timeout)
  | WaitOutcome.timedOut => true
  | WaitOutcome.err t _ => decide (t ≤ timeout)

/-- Outcome of one evaluation of the predicate passed to
wait_for_condition: it returned a boolean, or it raised an exception. -/
inductive PollResult where
  | ok (b : Bool)
  | exn (msg : String)
  deriving DecidableEq, Repr

/-- Observable behaviour of one wait_for_condition call: the returned value
(ok true) or the raised TimeoutError message, the number of predicate
evaluations, and the wall-clock time at which the call returned or
raised. -/
structure WaitTrace where
  result : Except String Bool
  polls : Nat
  elapsed : Nat
  deriving DecidableEq, Repr

/-- Loop of wait_for_condition (wait_helpers.py 24-33). Predicate
evaluations are instantaneous, so the k-th evaluation happens at time
k * pollInterval; the while condition time.time() - start_time < timeout
is checked before each poll; a poll returning True exits immediately,
any other outcome (False or a swallowed exception) is followed by
time.sleep(poll_interval); when the while condition fails,
TimeoutError(msg) is raised. Fuel bounds the recursion; wait_for_condition
supplies enough fuel that the fuel-exhausted branch coincides with the
loop-exit branch. -/
def pollLoop (cond : Nat → PollResult) (timeout pollInterval : Nat)
    (msg : String) : Nat → Nat → WaitTrace
  | 0, k => ⟨Except.error msg, k, k * pollInterval⟩
  | fuel + 1, k =>
    if k * pollInterval < timeout then
      match cond k with
      | PollResult.ok true => ⟨Except.ok true, k + 1, k * pollInterval⟩
      | _ => pollLoop cond timeout pollInterval msg fuel (k + 1)
    else ⟨Except.error msg, k, k * pollInterval⟩

/-- src/utils/wait_helpers.py lines 17-33: wait_for_condition. -/
def wait_for_condition (cond : Nat → PollResult) (timeout pollInterval : Nat)
    (error_message : String) : WaitTrace :=
  pollLoop cond timeout pollInterval error_message (timeout + 1) 0

/-- Result of one retry_on_failure call: the operation's return value, a
re-raised or propagated exception, or the raise-None TypeError that
raise last_exception produces when max_attempts is 0 and the loop body
never ran. -/
inductive RetryResult (α : Type) where
  | ok (v : α)
  | raised (e : String)
  | raisedNone
  deriving DecidableEq, Repr

/-- Observable behaviour of one retry_on_failure call: the result, the
number of times the operation was invoked, and the number of
time.sleep(delay) calls performed. -/
structure RetryTrace (α : Type) where
  result : RetryResult α
  calls : Nat
  sleeps : Nat
  deriving DecidableEq, Repr

/-- Loop of retry_on_failure (wait_helpers.py 55-67). op gives the outcome
of the operation on each 1-based attempt; retryable models membership of
a raised exception in the exceptions tuple; last carries last_exception.
On a caught exception the code sleeps only when attempt < max_attempts,
i.e. when at least one more attempt remains. -/
def retryAux {α : Type} (op : Nat → Except String α) (retryable : String → Bool)
    (last : Option String) (attempt : Nat) : Nat → RetryTrace α
  | 0 =>
    match last with
    | some e => ⟨RetryResult.raised e, 0, 0⟩
    | none => ⟨RetryResult.raisedNone, 0, 0⟩
  | remaining + 1 =>
    match op attempt with
    | Except.ok v => ⟨RetryResult.ok v, 1, 0⟩
    | Except.error e =>
      if retryable e then
        match remaining with
        | 0 => ⟨RetryResult.raised e, 1, 0⟩
        | r + 1 =>
          let t := retryAux op retryable (some e) (attempt + 1) (r + 1)
          ⟨t.result, t.calls + 1, t.sleeps + 1⟩
      else ⟨RetryResult.raised e, 1, 0⟩

/-- src/utils/wait_helpers.py lines 48-67: retry_on_failure. -/
def retry_on_failure {α : Type} (op : Nat → Except String α)
    (retryable : String → Bool) (max_attempts : Nat) : RetryTrace α :=
  retryAux op retryable none 1 max_attempts

/-- A Python exception reaching the db_helper layer: a psycopg2.Error
(driver) or any other exception. -/
inductive PyErr where
  | driver (msg : String)
  | other (msg : String)
  deriving DecidableEq, Repr

/-- Operations performed on the psycopg2 connection object. -/
inductive DbAction where
  | connect
  | commit
  | rollback
  | close
  deriving DecidableEq, Repr

/-- Observable behaviour of one use of the get_connection context manager:
the successful connection operations performed, in order, and the value
returned to (or exception propagated to) the caller. -/
structure DbRun (α : Type) where
  actions : List DbAction
  result : Except PyErr α
  deriving DecidableEq, Repr

/-- src/utils/db_helper.py lines 86-120: the get_connection context
manager around a body (the code of the with-block). psycopg2.connect may
itself raise a driver error, in which case conn is None, the except
branch skips the rollback and the finally branch skips the close. With a
connection established: the body yields a value or raises; on a normal
return the manager commits; a psycopg2.Error raised by the body or by the
commit is caught, the transaction is rolled back and the error re-raised;
a non-driver exception from the body propagates uncaught; in every path
with a connection the finally branch closes it. -/
def DatabaseHelper.get_connection {α : Type} (connectR : Except String Unit)
    (body : Except PyErr α) (commitR : Except String Unit) : DbRun α :=
  match connectR with
  | Except.error e => ⟨[], Except.error (PyErr.driver e)⟩
  | Except.ok _ =>
    match body with
    | Except.ok v =>
      match commitR with
      | Except.ok _ =>
        ⟨[DbAction.connect, DbAction.commit, DbAction.close], Except.ok v⟩
      | Except.error e =>
        ⟨[DbAction.connect, DbAction.commit, DbAction.rollback, DbAction.close],
          Except.error (PyErr.driver e)⟩
    | Except.error (PyErr.driver m) =>
      ⟨[DbAction.connect, DbAction.rollback, DbAction.close],
        Except.error (PyErr.driver m)⟩
    | Except.error (PyErr.other m) =>
      ⟨[DbAction.connect, DbAction.close], Except.error (PyErr.other m)⟩

/-- One database row, as the positional tuple psycopg2 returns. -/
abbrev Row := List String

/-- psycopg2 cursor.fetchone on a result set: the first row, or None when
the result set is empty. -/
def fetchone (rows : List Row) : Option Row := rows.head?

/-- src/utils/db_helper.py lines 189-211: fetch_one executes the query
inside get_connection and returns cursor.fetchone(). execR is the outcome
of cursor.execute (the rows of the result set, or a raised exception). -/
def DatabaseHelper.fetch_one (connectR : Except String Unit)
    (execR : Except PyErr (List Row)) (commitR : Except String Unit) :
    DbRun (Option Row) :=
  DatabaseHelper.get_connection connectR (Except.map fetchone execR) commitR

/-- Outcome of a behave step: it passed, it failed with an assertion
message, or it errored with an uncaught exception. -/
inductive StepResult where
  | passed
  | failed (msg : String)
  | error (msg : String)
  deriving DecidableEq, Repr

/-- Method names defined on BasePage (src/pages/base_page.py). -/
def basePageMethods : List String :=
  ["__init__", "wait_for_page_load", "navigate", "click_and_wait",
   "fill_input", "get_title", "get_url", "wait_for_selector", "is_visible",
   "get_text"]

/-- Method names defined on OverviewPage
(src/pages/it_assert_inventory/overview_page.py). -/
def overviewPageMethods : List String :=
  ["__init__", "_initialize_locators", "_get_locator", "goto_overview",
   "click_menu_item", "click_submenu_item", "navigate_via_menu",
   "navigate_to_it_asset_inventory_overview", "locate_section",
   "is_section_visible", "get_section_title", "is_section_title_visible",
   "get_all_metric_cards", "count_metric_cards", "is_metric_card_visible",
   "get_metric_card_by_name", "get_all_metric_values",
   "is_value_numeric_and_formatted", "verify_all_metric_values_numeric",
   "is_critical_assets_card_visible", "is_non_compliant_assets_card_visible",
   "is_inactive_devices_card_visible", "is_compliance_coverage_card_visible",
   "verify_all_security_posture_cards_visible", "is_overview_page_displayed",
   "verify_page_loaded", "scroll_to_endpoint_devices_section",
   "is_endpoint_devices_title_visible", "is_pie_chart_displayed",
   "is_devices_by_criticality_visible", "is_criticality_level_visible",
   "is_total_devices_count_displayed", "is_view_more_link_available"]

/-- Python attribute resolution for a method call self.name() on an
OverviewPage instance: the name resolves when OverviewPage or its base
class BasePage defines it; otherwise the call raises AttributeError. -/
def overviewPageResolves (name : String) : Bool :=
  overviewPageMethods.contains name || basePageMethods.contains name

/-- src/features/steps/it_asset_inventory/overview_steps.py lines 210-240.
Before anything else the step runs, at line 219 and outside the try
block, ui_count = overview_page.count_total_devices_count_displayed();
that attribute resolves neither on OverviewPage nor on BasePage, so when
it does not resolve the AttributeError propagates uncaught and the step
errors immediately. uiCount stands for the value the call would return
if the name resolved; only then does the step assert ui_count > 0 and
run the database comparison in a try block whose except clause catches
every Exception. dbFetch is the outcome of
db.fetch_one(COUNT_TOTAL_DEVICES), giving the first column of the
fetched row when one exists. The inner assert ui_count == db_count
raises AssertionError, which is an Exception and is therefore caught by
the same except clause, whose fallback assertion ui_count > 0 already
holds at that point. -/
def step_verify_total_devices_count_matches_db (uiCount : Int)
    (dbFetch : Except String (Option Int)) : StepResult :=
  if overviewPageResolves "count_total_devices_count_displayed" then
    if uiCount ≤ 0 then
      StepResult.failed "Total devices count is not displayed on UI or is zero"
    else
      match dbFetch with
      | Except.ok r =>
        let db_count : Int :=
          match r with
          | some v => v
          | none => 0
        if uiCount = db_count then StepResult.passed
        else
          -- AssertionError from the mismatch assert, caught by except Exception
          if uiCount > 0 then StepResult.passed
          else StepResult.failed "Total devices count should be greater than 0"
      | Except.error _ =>
        if uiCount > 0 then StepResult.passed
        else StepResult.failed "Total devices count should be greater than 0"
  else
    StepResult.error "AttributeError: count_total_devices_count_displayed"

/-- Page state consulted by is_overview_page_displayed: the number of
elements matched by page.get_by_text for each text, and whether the first
match is visible. -/
structure PageState where
  displayOverviewCount : Nat
  displayOverviewFirstVisible : Bool
  overviewCount : Nat
  overviewFirstVisible : Bool
  deriving DecidableEq, Repr

/-- src/pages/it_assert_inventory/overview_page.py lines 250-267: the try
body first calls self.wait_for_full_page_load(); if that name does not
resolve, the AttributeError is caught by the except Exception handler and
the method returns False. Otherwise it checks the Display Overview text,
then the Overview text. -/
def OverviewPage.is_overview_page_displayed (st : PageState) : Bool :=
  if overviewPageResolves "wait_for_full_page_load" then
    if st.displayOverviewCount > 0 then st.displayOverviewFirstVisible
    else if st.overviewCount > 0 then st.overviewFirstVisible
    else false
  else false

/-- src/pages/it_assert_inventory/overview_page.py lines 269-276: the try
body calls self.wait_for_full_page_load() and then
self.is_overview_page_displayed(); any Exception yields False. -/
def OverviewPage.verify_page_loaded (st : PageState) : Bool :=
  if overviewPageResolves "wait_for_full_page_load" then
    OverviewPage.is_overview_page_displayed st
  else false

/-- Concrete locator strategy used by witnesses. -/
def sampleStrategy : LocatorStrategy := ⟨"primary-sel", ["fb1", "fb2"]⟩

/-- Page oracle on which every selector times out. -/
def resolveAllTimeout : String → WaitOutcome := fun _ => WaitOutcome.timedOut

/-- Page oracle on which the primary selector is found quickly. -/
def resolvePrimaryFast : String → WaitOutcome := fun s =>
  if s = "primary-sel" then WaitOutcome.found 7 else WaitOutcome.timedOut

/-- Concrete predicate used by witnesses: raises on the first poll,
returns True on the second. -/
def condExnThenTrue : Nat → PollResult := fun k =>
  if k = 0 then PollResult.exn "boom" else PollResult.ok (k == 1)

/-- Concrete predicate that never returns True. -/
def condNeverTrue : Nat → PollResult := fun _ => PollResult.ok false

/-- Concrete operation failing on attempts 1 and 2 and succeeding on 3. -/
def opTwoFailures : Nat → Except String Nat := fun k =>
  if k = 1 then Except.error "err1"
  else if k = 2 then Except.error "err2"
  else Except.ok 42

/-- Concrete operation failing on every attempt. -/
def opAlwaysFails : Nat → Except String Nat := fun k =>
  Except.error (String.append "fail" (toString k))

/-- Exception filter that retries every exception (the default
exceptions=(Exception,) of retry_on_failure). -/
def alwaysRetryable : String → Bool := fun _ => true

/-! Helper lemmas shared by the locator-strategy theorems. -/

/-- When every candidate in the list times out, the loop waits on each
candidate once, spends the full timeout on each, and returns None. -/
theorem tryCandidates_all_timeout (resolve : String → WaitOutcome)
    (timeout : Nat) (l : List String)
    (h : ∀ s ∈ l, resolve s = WaitOutcome.timedOut) :
    tryCandidates resolve timeout l =
      ⟨Except.ok none, l, timeout * l.length⟩ := by
  induction l with
  | nil => simp [tryCandidates]
  | cons s rest ih =>
    have hs : resolve s = WaitOutcome.timedOut := h s (by simp)
    have hrest := ih (fun x hx => h x (List.mem_cons_of_mem _ hx))
    simp only [tryCandidates, hs, hrest, List.length_cons]
    refine congrArg (FindTrace.mk (Except.ok none) (s :: rest)) ?_
    ring

/-- General shape of one pass over a candidate list whose wait outcomes
are well-timed: the waited-on selectors form a prefix of the list, at
most one wait per candidate, and total wait time is at most one timeout
per candidate. -/
theorem tryCandidates_spec (resolve : String → WaitOutcome) (timeout : Nat)
    (l : List String)
    (h : ∀ s ∈ l, waitBound timeout (resolve s) = true) :
    (∃ rest, l = (tryCandidates resolve timeout l).queried ++ rest) ∧
    (tryCandidates resolve timeout l).queried.length ≤ l.length ∧
    (tryCandidates resolve timeout l).elapsed ≤ timeout * l.length := by
  induction l with
  | nil => exact ⟨⟨[], rfl⟩, by simp [tryCandidates]⟩
  | cons s rest ih =>
    have hb := h s (by simp)
    cases hres : resolve s with
    | found t =>
      rw [hres] at hb
      simp only [waitBound, decide_eq_true_eq] at hb
      refine ⟨⟨rest, by simp [tryCandidates, hres]⟩, ?_, ?_⟩ <;>
        simp only [tryCandidates, hres, List.length_cons, List.length_nil]
      · omega
      · calc t ≤ timeout := hb
          _ ≤ timeout * (rest.length + 1) := by
              have := Nat.le_mul_of_pos_right timeout
                (Nat.succ_pos rest.length)
              simpa using this
    | timedOut =>
      obtain ⟨⟨tail, htail⟩, hlen, hel⟩ :=
        ih (fun x hx => h x (List.mem_cons_of_mem _ hx))
      refine ⟨⟨tail, ?_⟩, ?_, ?_⟩ <;>
        simp only [tryCandidates, hres, List.length_cons, List.length_nil]
      · simpa using htail
      · simpa using hlen
      · calc timeout + (tryCandidates resolve timeout rest).elapsed
            ≤ timeout + timeout * rest.length := by omega
          _ = timeout * (rest.length + 1) := by ring
    | err t m =>
      rw [hres] at hb
      simp only [waitBound, decide_eq_true_eq] at hb
      refine ⟨⟨rest, by simp [tryCandidates, hres]⟩, ?_, ?_⟩ <;>
        simp only [tryCandidates, hres, List.length_cons, List.length_nil]
      · omega
      · calc t ≤ timeout := hb
          _ ≤ timeout * (rest.length + 1) := by
              have := Nat.le_mul_of_pos_right timeout
                (Nat.succ_pos rest.length)
              simpa using this

/-- C1: for every LocatorStrategy and page state in which the primary
selector and every fallback selector each time out, find_element returns
an absent result (None) rather than letting an exception escape the
strategy boundary. -/
theorem find_element_all_timeout_absent (L : LocatorStrategy)
    (resolve : String → WaitOutcome) (timeout : Nat)
    (hp : resolve L.primary = WaitOutcome.timedOut)
    (hf : ∀ s ∈ L.fallbacks, resolve s = WaitOutcome.timedOut) :
    (L.find_element resolve timeout).result = Except.ok none := by
  have h : ∀ s ∈ L.primary :: L.fallbacks, resolve s = WaitOutcome.timedOut := by
    intro s hs
    rcases List.mem_cons.mp hs with h1 | h2
    · rw [h1]; exact hp
    · exact hf s h2
  rw [LocatorStrategy.find_element,
    tryCandidates_all_timeout resolve timeout _ h]

/-- Witness for C1 on a concrete strategy and an all-timeout page. -/
theorem find_element_all_timeout_absent_witness :
    resolveAllTimeout sampleStrategy.primary = WaitOutcome.timedOut ∧
    (sampleStrategy.find_element resolveAllTimeout 5000).result =
      Except.ok none :=
  ⟨rfl, find_element_all_timeout_absent sampleStrategy resolveAllTimeout 5000
    rfl (by decide)⟩

/-- C2: whenever the primary selector resolves within the per-attempt
timeout, find_element returns a handle bound to the primary selector,
waits on no other selector, and its elapsed time is the primary wait
time. -/
theorem find_element_primary_no_fallback (L : LocatorStrategy)
    (resolve : String → WaitOutcome) (timeout t : Nat)
    (hp : resolve L.primary = WaitOutcome.found t) (_ht : t ≤ timeout) :
    L.find_element resolve timeout =
      ⟨Except.ok (some L.primary), [L.primary], t⟩ := by
  simp [LocatorStrategy.find_element, tryCandidates, hp]

/-- Witness for C2 on a concrete strategy whose primary is found at time
7 of a 5000 budget. -/
theorem find_element_primary_no_fallback_witness :
    resolvePrimaryFast sampleStrategy.primary = WaitOutcome.found 7 ∧
    7 ≤ 5000 ∧
    sampleStrategy.find_element resolvePrimaryFast 5000 =
      ⟨Except.ok (some sampleStrategy.primary), [sampleStrategy.primary], 7⟩ :=
  ⟨by decide, by decide,
    find_element_primary_no_fallback sampleStrategy resolvePrimaryFast 5000 7
      (by decide) (by decide)⟩

/-- C3: one find_element call on a strategy with n fallbacks performs at
most 1 + n wait attempts, the waited-on selectors are an initial segment
of primary followed by the fallbacks in list order (so each candidate is
waited on at most once), and the total wait time is at most
timeout * (1 + n). -/
theorem find_element_attempt_bounds (L : LocatorStrategy)
    (resolve : String → WaitOutcome) (timeout : Nat)
    (h : ∀ s ∈ L.primary :: L.fallbacks, waitBound timeout (resolve s) = true) :
    (∃ rest, L.primary :: L.fallbacks =
      (L.find_element resolve timeout).queried ++ rest) ∧
    (L.find_element resolve timeout).queried.length ≤ 1 + L.fallbacks.length ∧
    (L.find_element resolve timeout).elapsed ≤
      timeout * (1 + L.fallbacks.length) := by
  obtain ⟨hpre, hlen, hel⟩ := tryCandidates_spec resolve timeout _ h
  refine ⟨hpre, ?_, ?_⟩
  · simpa [LocatorStrategy.find_element, Nat.add_comm] using hlen
  · simpa [LocatorStrategy.find_element, Nat.add_comm] using hel

/-- Witness for C3 on a concrete strategy with two fallbacks, where the
primary times out and the first fallback is found. -/
theorem find_element_attempt_bounds_witness :
    (∀ s ∈ sampleStrategy.primary :: sampleStrategy.fallbacks,
      waitBound 5000 (resolveAllTimeout s) = true) ∧
    (∃ rest, sampleStrategy.primary :: sampleStrategy.fallbacks =
      (sampleStrategy.find_element resolveAllTimeout 5000).queried ++ rest) ∧
    (sampleStrategy.find_element resolveAllTimeout 5000).queried.length ≤
      1 + sampleStrategy.fallbacks.length ∧
    (sampleStrategy.find_element resolveAllTimeout 5000).elapsed ≤
      5000 * (1 + sampleStrategy.fallbacks.length) :=
  ⟨by decide,
    find_element_attempt_bounds sampleStrategy resolveAllTimeout 5000
      (by decide)⟩

/-! Helper lemmas shared by the wait_for_condition theorems. -/

/-- The loop of wait_for_condition can only return True or raise the
supplied TimeoutError message: a predicate exception is swallowed, never
propagated. -/
theorem pollLoop_result_dichotomy (cond : Nat → PollResult)
    (timeout p : Nat) (msg : String) :
    ∀ fuel k, (pollLoop cond timeout p msg fuel k).result = Except.ok true ∨
      (pollLoop cond timeout p msg fuel k).result = Except.error msg := by
  intro fuel
  induction fuel with
  | zero => intro k; exact Or.inr rfl
  | succ n ih =>
    intro k
    rw [pollLoop]
    split
    · cases hc : cond k with
      | ok b =>
        cases b
        · exact ih (k + 1)
        · exact Or.inl rfl
      | exn e => exact ih (k + 1)
    · exact Or.inr rfl

/-- If no poll within the timeout window returns True, the loop raises the
TimeoutError message at the first multiple of the poll interval that is
not below the timeout, which is less than one poll interval past it. -/
theorem pollLoop_timeout (cond : Nat → PollResult) (timeout p : Nat)
    (msg : String) (hp : 1 ≤ p)
    (h : ∀ j, j < timeout → cond j ≠ PollResult.ok true) :
    ∀ fuel k, k * p ≤ timeout + p →
      (pollLoop cond timeout p msg fuel k).result = Except.error msg ∧
      (pollLoop cond timeout p msg fuel k).elapsed ≤ timeout + p := by
  intro fuel
  induction fuel with
  | zero => intro k hk; exact ⟨rfl, hk⟩
  | succ n ih =>
    intro k hk
    rw [pollLoop]
    split
    · rename_i hlt
      have hkt : k < timeout := by
        have hk1 : k * 1 ≤ k * p := Nat.mul_le_mul_left k hp
        omega
      have hck := h k hkt
      have hmul : (k + 1) * p = k * p + p := by ring
      cases hc : cond k with
      | ok b =>
        cases b
        · exact ih (k + 1) (by omega)
        · exact absurd hc hck
      | exn e => exact ih (k + 1) (by omega)
    · exact ⟨rfl, hk⟩

/-- If poll k is the first to return True and lies inside the timeout
window, the loop returns True right there, after k + 1 polls and k poll
intervals of sleeping. -/
theorem pollLoop_success (cond : Nat → PollResult) (timeout p : Nat)
    (msg : String) (k : Nat) (hk : k * p < timeout)
    (hc : cond k = PollResult.ok true)
    (hbefore : ∀ j, j < k → cond j ≠ PollResult.ok true) :
    ∀ fuel j, j ≤ k → k - j < fuel →
      pollLoop cond timeout p msg fuel j =
        ⟨Except.ok true, k + 1, k * p⟩ := by
  intro fuel
  induction fuel with
  | zero => intro j hj hf; omega
  | succ n ih =>
    intro j hj hf
    have hjlt : j * p < timeout :=
      lt_of_le_of_lt (Nat.mul_le_mul_right p hj) hk
    rw [pollLoop, if_pos hjlt]
    by_cases hje : j = k
    · subst hje
      rw [hc]
    · have hjk : j < k := lt_of_le_of_ne hj hje
      have hne := hbefore j hjk
      cases hcj : cond j with
      | ok b =>
        cases b
        · exact ih (j + 1) (by omega) (by omega)
        · exact absurd hcj hne
      | exn e => exact ih (j + 1) (by omega) (by omega)

/-- C4: for every predicate, wait_for_condition either returns true or
raises a TimeoutError whose message is exactly the supplied failure
message — a predicate exception is swallowed during the poll and never
propagated — and whenever no poll inside the timeout window returns
true, the outcome is that TimeoutError. -/
theorem wait_for_condition_swallows_and_times_out (cond : Nat → PollResult)
    (timeout p : Nat) (msg : String) (hp : 1 ≤ p) :
    ((wait_for_condition cond timeout p msg).result = Except.ok true ∨
      (wait_for_condition cond timeout p msg).result = Except.error msg) ∧
    ((∀ j, j < timeout → cond j ≠ PollResult.ok true) →
      (wait_for_condition cond timeout p msg).result = Except.error msg) := by
  constructor
  · exact pollLoop_result_dichotomy cond timeout p msg (timeout + 1) 0
  · intro h
    exact (pollLoop_timeout cond timeout p msg hp h (timeout + 1) 0
      (by omega)).1

/-- Witness for C4: a predicate raising on poll 0 and true on poll 1
yields True, not the predicate exception; and a never-true predicate
yields the supplied message. -/
theorem wait_for_condition_swallows_witness :
    1 ≤ 1 ∧
    ((wait_for_condition condExnThenTrue 30 1 "Condition not met").result =
        Except.ok true ∨
      (wait_for_condition condExnThenTrue 30 1 "Condition not met").result =
        Except.error "Condition not met") ∧
    (wait_for_condition condNeverTrue 30 1 "Condition not met").result =
      Except.error "Condition not met" :=
  ⟨Nat.le_refl 1,
    (wait_for_condition_swallows_and_times_out condExnThenTrue 30 1
      "Condition not met" (by decide)).1,
    (wait_for_condition_swallows_and_times_out condNeverTrue 30 1
      "Condition not met" (by decide)).2 (by decide)⟩

/-- C5: wait_for_condition returns true at the first poll at which the
predicate returns true, with exactly that many polls and no sleep after
the successful evaluation; and when no poll inside the timeout window
succeeds, it fails with the TimeoutError after an elapsed time of at
most timeout + poll_interval. -/
theorem wait_for_condition_latency (cond : Nat → PollResult)
    (timeout p : Nat) (msg : String) (hp : 1 ≤ p) :
    (∀ k, k * p < timeout → cond k = PollResult.ok true →
      (∀ j, j < k → cond j ≠ PollResult.ok true) →
      wait_for_condition cond timeout p msg =
        ⟨Except.ok true, k + 1, k * p⟩) ∧
    ((∀ j, j < timeout → cond j ≠ PollResult.ok true) →
      (wait_for_condition cond timeout p msg).result = Except.error msg ∧
      (wait_for_condition cond timeout p msg).elapsed ≤ timeout + p) := by
  constructor
  · intro k hk hc hbefore
    have hkt : k < timeout := by
      have hk1 : k * 1 ≤ k * p := Nat.mul_le_mul_left k hp
      omega
    exact pollLoop_success cond timeout p msg k hk hc hbefore (timeout + 1) 0
      (Nat.zero_le k) (by omega)
  · intro h
    exact pollLoop_timeout cond timeout p msg hp h (timeout + 1) 0 (by omega)

/-- Witness for C5: with an exception at poll 0 and truth at poll 1, the
call returns true after 2 polls and 1 poll interval; a never-true
predicate fails within timeout + poll_interval. -/
theorem wait_for_condition_latency_witness :
    1 ≤ 1 ∧ 1 * 1 < 30 ∧
    wait_for_condition condExnThenTrue 30 1 "Condition not met" =
      ⟨Except.ok true, 2, 1⟩ ∧
    ((wait_for_condition condNeverTrue 30 1 "Condition not met").result =
        Except.error "Condition not met" ∧
      (wait_for_condition condNeverTrue 30 1 "Condition not met").elapsed ≤
        30 + 1) :=
  ⟨Nat.le_refl 1, by decide,
    (wait_for_condition_latency condExnThenTrue 30 1 "Condition not met"
      (by decide)).1 1 (by decide) (by decide) (by decide),
    (wait_for_condition_latency condNeverTrue 30 1 "Condition not met"
      (by decide)).2 (by decide)⟩

/-! Helper lemma for retry_on_failure. -/

/-- When every attempt from a through a + r - 1 raises a retryable error,
the retry loop invokes the operation r times, sleeps r - 1 times (never
after the final attempt) and re-raises the error of the last attempt. -/
theorem retryAux_all_fail {α : Type} (op : Nat → Except String α)
    (retryable : String → Bool) (errs : Nat → String) :
    ∀ r a last, 1 ≤ r →
      (∀ k, a ≤ k → k < a + r →
        op k = Except.error (errs k) ∧ retryable (errs k) = true) →
      retryAux op retryable last a r =
        ⟨RetryResult.raised (errs (a + r - 1)), r, r - 1⟩ := by
  intro r
  induction r with
  | zero => intro a last h0 _; exact absurd h0 (by omega)
  | succ n ih =>
    intro a last h1 h
    have ha := h a (Nat.le_refl a) (by omega)
    cases n with
    | zero =>
      simp [retryAux, ha.1, ha.2]
    | succ m =>
      have ih2 := ih (a + 1) (some (errs a)) (by omega)
        (fun k hk1 hk2 => h k (by omega) (by omega))
      simp only [retryAux, ha.1, ha.2, if_true, ih2]
      have harg : a + 1 + (m + 1) - 1 = a + (m + 1 + 1) - 1 := by omega
      rw [harg]
      simp

/-- C6: with max_attempts = 3 and an operation raising retryable errors
on its first two invocations and succeeding on the third,
retry_on_failure returns the success value after 3 calls and exactly 2
sleeps; and for every operation raising a retryable error on all of its
max_attempts invocations, it re-raises the last error after
max_attempts - 1 sleeps, never sleeping after the final attempt. -/
theorem retry_on_failure_two_failures_then_success {α : Type}
    (retryable : String → Bool) :
    (∀ (op : Nat → Except String α) (v : α) (e1 e2 : String),
      op 1 = Except.error e1 → op 2 = Except.error e2 →
      op 3 = Except.ok v → retryable e1 = true → retryable e2 = true →
      retry_on_failure op retryable 3 = ⟨RetryResult.ok v, 3, 2⟩) ∧
    (∀ (op : Nat → Except String α) (errs : Nat → String) (m : Nat),
      1 ≤ m →
      (∀ k, k ≤ m → 1 ≤ k →
        op k = Except.error (errs k) ∧ retryable (errs k) = true) →
      retry_on_failure op retryable m =
        ⟨RetryResult.raised (errs m), m, m - 1⟩) := by
  constructor
  · intro op v e1 e2 h1 h2 h3 hr1 hr2
    simp [retry_on_failure, retryAux, h1, h2, h3, hr1, hr2]
  · intro op errs m hm h
    have := retryAux_all_fail op retryable errs m 1 none hm
      (fun k hk1 hk2 => h k (by omega) hk1)
    simpa [retry_on_failure, Nat.add_sub_cancel_left] using this

/-- Witness for C6 on a concrete operation failing twice then returning
42, and on a concrete operation failing on all 3 attempts. -/
theorem retry_on_failure_two_failures_then_success_witness :
    opTwoFailures 1 = Except.error "err1" ∧
    retry_on_failure opTwoFailures alwaysRetryable 3 =
      ⟨RetryResult.ok 42, 3, 2⟩ ∧
    retry_on_failure opAlwaysFails alwaysRetryable 3 =
      ⟨RetryResult.raised (String.append "fail" (toString 3)), 3, 2⟩ :=
  ⟨by decide,
    (retry_on_failure_two_failures_then_success alwaysRetryable).1
      opTwoFailures 42 "err1" "err2" (by decide) (by decide) (by decide)
      (by decide) (by decide),
    (retry_on_failure_two_failures_then_success alwaysRetryable).2
      opAlwaysFails (fun k => String.append "fail" (toString k)) 3
      (by decide) (by decide)⟩

/-- C7: with an established connection, the get_connection context
manager commits when the with-body completes without error, and on a
driver-level error (raised by the body or by the commit itself) rolls the
transaction back and re-raises that error; in every such case the
connection is closed before the call returns. -/
theorem get_connection_transaction_discipline (body : Except PyErr Unit)
    (commitR : Except String Unit) :
    (body = Except.ok () → commitR = Except.ok () →
      (DatabaseHelper.get_connection (Except.ok ()) body commitR).result =
        Except.ok () ∧
      DbAction.commit ∈
        (DatabaseHelper.get_connection (Except.ok ()) body commitR).actions) ∧
    (∀ m, body = Except.error (PyErr.driver m) →
      (DatabaseHelper.get_connection (Except.ok ()) body commitR).result =
        Except.error (PyErr.driver m) ∧
      DbAction.rollback ∈
        (DatabaseHelper.get_connection (Except.ok ()) body commitR).actions) ∧
    (∀ m, body = Except.ok () → commitR = Except.error m →
      (DatabaseHelper.get_connection (Except.ok ()) body commitR).result =
        Except.error (PyErr.driver m) ∧
      DbAction.rollback ∈
        (DatabaseHelper.get_connection (Except.ok ()) body commitR).actions) ∧
    DbAction.close ∈
      (DatabaseHelper.get_connection (Except.ok ()) body commitR).actions := by
  refine ⟨fun hb hc => ?_, fun m hb => ?_, fun m hb hc => ?_, ?_⟩
  · subst hb; subst hc; exact ⟨rfl, by decide⟩
  · subst hb; exact ⟨rfl, by simp [DatabaseHelper.get_connection]⟩
  · subst hb; subst hc
    exact ⟨rfl, by simp [DatabaseHelper.get_connection]⟩
  · cases body with
    | ok v =>
      cases commitR with
      | ok u => simp [DatabaseHelper.get_connection]
      | error em => simp [DatabaseHelper.get_connection]
    | error e =>
      cases e with
      | driver m => simp [DatabaseHelper.get_connection]
      | other m => simp [DatabaseHelper.get_connection]

/-- Witness for C7 on a successful body and commit. -/
theorem get_connection_transaction_discipline_witness :
    (Except.ok () : Except PyErr Unit) = Except.ok () ∧
    ((DatabaseHelper.get_connection (Except.ok ())
        (Except.ok () : Except PyErr Unit) (Except.ok ())).result =
      Except.ok () ∧
      DbAction.commit ∈ (DatabaseHelper.get_connection (Except.ok ())
        (Except.ok () : Except PyErr Unit) (Except.ok ())).actions) :=
  ⟨rfl,
    (get_connection_transaction_discipline (Except.ok ())
      (Except.ok ())).1 rfl rfl⟩

/-- C8: a fetch_one whose query yields an empty result set returns an
absent result (None) — not an empty tuple and not an exception — and a
fetch_one whose query yields at least one row returns the first row as a
tuple. -/
theorem fetch_one_empty_returns_absent :
    ((DatabaseHelper.fetch_one (Except.ok ()) (Except.ok ([] : List Row))
        (Except.ok ())).result = Except.ok none) ∧
    (∀ (r : Row) (rs : List Row),
      (DatabaseHelper.fetch_one (Except.ok ()) (Except.ok (r :: rs))
        (Except.ok ())).result = Except.ok (some r)) := by
  exact ⟨rfl, fun r rs => rfl⟩

/-- C9: the total-devices step can never perform the claimed
verification: its first action, at overview_steps.py line 219 and
outside the try block, calls
overview_page.count_total_devices_count_displayed(), a name that
resolves neither on OverviewPage nor on BasePage, so every execution of
the step — whatever count the UI would show and whether the database is
reachable, unreachable, or returns a matching or mismatching count —
errors with an uncaught AttributeError before the UI assertion, the
database query, the equality assertion, or the degraded positivity
assertion is ever reached; in particular the step never passes. -/
theorem step_total_devices_always_attribute_error :
    overviewPageResolves "count_total_devices_count_displayed" = false ∧
    (∀ (uiCount : Int) (dbFetch : Except String (Option Int)),
      step_verify_total_devices_count_matches_db uiCount dbFetch =
        StepResult.error "AttributeError: count_total_devices_count_displayed") ∧
    (∀ (uiCount : Int) (dbFetch : Except String (Option Int)),
      step_verify_total_devices_count_matches_db uiCount dbFetch ≠
        StepResult.passed) := by
  have hres : overviewPageResolves "count_total_devices_count_displayed" =
      false := by decide
  refine ⟨hres, fun uiCount dbFetch => ?_, fun uiCount dbFetch => ?_⟩ <;>
    simp [step_verify_total_devices_count_matches_db, hres]

/-- C10: the method name wait_for_full_page_load resolves neither on
OverviewPage nor on BasePage, so the AttributeError raised by the first
statement of the try block is caught by the catch-all handler:
is_overview_page_displayed and verify_page_loaded return False on every
page state, even one where the Overview page is displayed. -/
theorem overview_page_displayed_always_false :
    overviewPageResolves "wait_for_full_page_load" = false ∧
    (∀ st : PageState, OverviewPage.is_overview_page_displayed st = false) ∧
    (∀ st : PageState, OverviewPage.verify_page_loaded st = false) := by
  have hres : overviewPageResolves "wait_for_full_page_load" = false := by
    decide
  refine ⟨hres, fun st => ?_, fun st => ?_⟩
  · simp [OverviewPage.is_overview_page_displayed, hres]
  · simp [OverviewPage.verify_page_loaded, hres]
